import Mathlib

/-!
Verification of the depth-supervised nerfacto model
(`nerfstudio/models/depth_nerfacto.py`).

The file shallowly embeds the pure content of `DepthNerfactoModel`:
the configuration record, the sigma-decay controller (`_get_sigma`),
the training-time metric dispatch (`get_metrics_dict`), the loss
blender (`get_loss_dict`), and the evaluation-time depth reporting
(`get_image_metrics_and_images`).

Scalars and tensor entries are modelled as rationals (the Python code
computes with floating point; the spec's claims are about the exact
arithmetic the expressions denote).  Per-ray tensors that the file
only passes through to external loss functions are collapsed to single
opaque rational payloads; the external loss functions themselves
(`depth_loss`, `depth_ranking_loss` from the losses module, which is
not part of this file) are universally quantified parameters of the
embedding.  Python exceptions (`ValueError`, `NotImplementedError`,
`assert`) become an `Except` error type.  The in-place mutation of
`self.depth_sigma` and of the caller's `outputs` dict becomes explicit
state passing.
-/

namespace DepthNerfacto

/-- Modelled from the spec: the `DepthLossType` enumeration lives in the
losses module, which is not under `src/`.  The six tags referenced by
`depth_nerfacto.py` are listed, together with `otherTag`, a
representative member standing for any further (unrecognized) tag value
that reaches the dispatch's fallback branch, which the spec requires to
exist ("An unrecognized tag value always raises not implemented"). -/
inductive DepthLossType where
  | dsNerf
  | urf
  | sparsenerfRanking
  | simpleLoss
  | depthUncertaintyWeightedLoss
  | denseDepthPriorsLoss
  | otherTag
deriving DecidableEq, Repr

/-- Modelled from the spec: `losses.PSEUDODEPTH_COMPATIBLE_LOSSES` is
defined in the losses module, which is not under `src/`.  The spec
describes it as "a fixed allow-list of pseudo-depth-compatible types",
a proper subset of the enumeration; the ranking loss is the
pseudo-depth family. -/
def PSEUDODEPTH_COMPATIBLE_LOSSES : List DepthLossType :=
  [DepthLossType.sparsenerfRanking]

/-- The tuple of regression-family tags tested on line 91 of the source,
in source order: `(DS_NERF, URF, SIMPLE_LOSS,
DEPTH_UNCERTAINTY_WEIGHTED_LOSS, DENSE_DEPTH_PRIORS_LOSS)`. -/
def regressionLosses : List DepthLossType :=
  [DepthLossType.dsNerf, DepthLossType.urf, DepthLossType.simpleLoss,
   DepthLossType.depthUncertaintyWeightedLoss, DepthLossType.denseDepthPriorsLoss]

/-- The tuple of tags tested on line 98 of the source for which the
ground-truth uncertainty is fetched from the batch:
`(DEPTH_UNCERTAINTY_WEIGHTED_LOSS, DENSE_DEPTH_PRIORS_LOSS)`. -/
def uncertaintyLosses : List DepthLossType :=
  [DepthLossType.depthUncertaintyWeightedLoss, DepthLossType.denseDepthPriorsLoss]

/-- `DepthNerfactoModelConfig`: the scalar knobs added by the depth
model, with the source's default values (0.02, 1.0, 0.01, 0.2,
0.99985, SIMPLE_LOSS). -/
structure DepthNerfactoModelConfig where
  depth_loss_mult : ℚ := 1 / 50
  uncertainty_weight : ℚ := 1
  is_euclidean_depth : Bool := false
  depth_sigma : ℚ := 1 / 100
  should_decay_sigma : Bool := false
  starting_depth_sigma : ℚ := 1 / 5
  sigma_decay_rate : ℚ := 99985 / 100000
  depth_loss_type : DepthLossType := DepthLossType.simpleLoss
deriving DecidableEq, Repr

/-- The sigma seeding in `populate_modules`: the 1-element tensor
`self.depth_sigma` starts from the starting sigma when decay is
enabled, and from the constant configured sigma otherwise. -/
def initialDepthSigma (cfg : DepthNerfactoModelConfig) : ℚ :=
  if cfg.should_decay_sigma then cfg.starting_depth_sigma else cfg.depth_sigma

/-- `_get_sigma`: returns the queried sigma value together with the new
`self.depth_sigma` state.  Without decay the state is returned
unchanged; with decay the state is first updated to
`max(sigma_decay_rate * state, depth_sigma)` and the updated state is
returned. -/
def getSigma (cfg : DepthNerfactoModelConfig) (st : ℚ) : ℚ × ℚ :=
  if cfg.should_decay_sigma then
    let s := max (cfg.sigma_decay_rate * st) cfg.depth_sigma
    (s, s)
  else
    (st, st)

/-- The state of `self.depth_sigma` after `n` queries of `_get_sigma`,
starting from the `populate_modules` seed. -/
def sigmaState (cfg : DepthNerfactoModelConfig) : ℕ → ℚ
  | 0 => initialDepthSigma cfg
  | n + 1 => (getSigma cfg (sigmaState cfg n)).2

/-- The value returned by the `(n+1)`-th query of `_get_sigma` (queries
counted from 0). -/
def sigmaValue (cfg : DepthNerfactoModelConfig) (n : ℕ) : ℚ :=
  (getSigma cfg (sigmaState cfg n)).1

/-- The keys of `outputs` read by the training-time metric path.
`weights_list` and `ray_samples_list` hold one opaque payload per
importance-sampling round. -/
structure TrainOutputs where
  weights_list : List ℚ
  ray_samples_list : List ℚ
  expected_depth : ℚ
  depth_uncertainty : ℚ
  directions_norm : ℚ
deriving DecidableEq, Repr

/-- The keys of `batch` read by the training-time metric path. -/
structure TrainBatch where
  depth_image : ℚ
  depth_uncertainty : ℚ
deriving DecidableEq, Repr

/-- The full argument record of one call to the external
`losses.depth_loss` function (lines 102-114 of the source). -/
structure DepthLossArgs where
  weights : ℚ
  ray_samples : ℚ
  termination_depth : ℚ
  predicted_depth : ℚ
  sigma : ℚ
  directions_norm : ℚ
  is_euclidean : Bool
  depth_loss_type : DepthLossType
  termination_uncertainty : Option ℚ
  predicted_uncertainty : ℚ
  uncertainty_weight : ℚ
deriving DecidableEq, Repr

/-- The arguments `get_metrics_dict` passes to `depth_loss` for
importance round `i`.  The ground-truth `termination_uncertainty` is
fetched from the batch only for the uncertainty-weighted and
dense-depth-priors tags (line 97-99) and is `None` otherwise;
`predicted_uncertainty` and `uncertainty_weight` are taken
unconditionally from the outputs and the config (lines 112-113). -/
def depthLossArgs (cfg : DepthNerfactoModelConfig) (outputs : TrainOutputs)
    (batch : TrainBatch) (sigma : ℚ) (i : ℕ) : DepthLossArgs where
  weights := outputs.weights_list.getD i 0
  ray_samples := outputs.ray_samples_list.getD i 0
  termination_depth := batch.depth_image
  predicted_depth := outputs.expected_depth
  sigma := sigma
  directions_norm := outputs.directions_norm
  is_euclidean := cfg.is_euclidean_depth
  depth_loss_type := cfg.depth_loss_type
  termination_uncertainty :=
    if cfg.depth_loss_type ∈ uncertaintyLosses then some batch.depth_uncertainty else none
  predicted_uncertainty := outputs.depth_uncertainty
  uncertainty_weight := cfg.uncertainty_weight

/-- The exceptions the training-time paths can raise: the
`ValueError` of the forced-pseudodepth configuration check (carrying
the offending tag and the allowed set its message names), the
`NotImplementedError` of the dispatch fallback (carrying the tag its
message names), and the `assert` in `get_loss_dict`. -/
inductive DepthError where
  | configError (tag : DepthLossType) (allowed : List DepthLossType)
  | notImplemented (tag : DepthLossType)
  | assertionError
deriving DecidableEq, Repr

/-- The two keys `get_metrics_dict` can add to the base metrics dict.
The base model's own entries are untouched by this file and are not
modelled. -/
structure MetricsUpdate where
  depth_loss : Option ℚ := none
  depth_ranking : Option ℚ := none
deriving DecidableEq, Repr

/-- `get_metrics_dict`, parameterized over the external loss functions
`dlf` (`losses.depth_loss`) and `drf` (`losses.depth_ranking_loss`)
and over the module-wide flag `force` (`losses.FORCE_PSEUDODEPTH_LOSS`).
Returns the metric entries added to the base dict together with the
resulting `self.depth_sigma` state.  Outside training mode nothing is
added and nothing can be raised.  In training mode: the pseudodepth
configuration check runs first; the regression family queries sigma
once and accumulates `depth_loss += dlf(args_i) / N` over the `N`
rounds of `weights_list` starting from 0.0; the ranking tag computes
`drf(expected_depth, depth_image)`; any other tag raises. -/
def getMetricsDict (dlf : DepthLossArgs → ℚ) (drf : ℚ → ℚ → ℚ) (force : Bool)
    (cfg : DepthNerfactoModelConfig) (training : Bool) (st : ℚ)
    (outputs : TrainOutputs) (batch : TrainBatch) :
    Except DepthError (MetricsUpdate × ℚ) :=
  if training then
    if force ∧ cfg.depth_loss_type ∉ PSEUDODEPTH_COMPATIBLE_LOSSES then
      Except.error (DepthError.configError cfg.depth_loss_type PSEUDODEPTH_COMPATIBLE_LOSSES)
    else if cfg.depth_loss_type ∈ regressionLosses then
      let sigmaNew := getSigma cfg st
      let n := outputs.weights_list.length
      let dl := (List.range n).foldl
        (fun acc i => acc + dlf (depthLossArgs cfg outputs batch sigmaNew.1 i) / (n : ℚ)) 0
      Except.ok ({ depth_loss := some dl }, sigmaNew.2)
    else if cfg.depth_loss_type = DepthLossType.sparsenerfRanking then
      Except.ok ({ depth_ranking := some (drf outputs.expected_depth batch.depth_image) }, st)
    else
      Except.error (DepthError.notImplemented cfg.depth_loss_type)
  else
    Except.ok ({}, st)

/-- `np.interp(step, [0, 2000], [0, 0.2])`: clamped linear
interpolation over the two-point table. -/
def rampSchedule (x : ℚ) : ℚ :=
  if x ≤ 0 then 0
  else if 2000 ≤ x then 1 / 5
  else 0 + (x - 0) * ((1 / 5 - 0) / (2000 - 0))

/-- The two keys `get_loss_dict` can add to the base loss dict. -/
structure LossUpdate where
  depth_ranking : Option ℚ := none
  depth_loss : Option ℚ := none
deriving DecidableEq, Repr

/-- `get_loss_dict`: in training mode, asserts that the metrics dict
is present and holds at least one of the two depth keys, then adds
`depth_loss_mult * ramp(step) * depth_ranking` and/or
`depth_loss_mult * depth_loss`.  Outside training mode the base loss
dict passes through unchanged. -/
def getLossDict (cfg : DepthNerfactoModelConfig) (training : Bool) (step : ℕ)
    (metrics : Option MetricsUpdate) : Except DepthError LossUpdate :=
  if training then
    match metrics with
    | none => Except.error DepthError.assertionError
    | some m =>
      if m.depth_loss = none ∧ m.depth_ranking = none then
        Except.error DepthError.assertionError
      else
        Except.ok
          { depth_ranking := m.depth_ranking.map
              (fun dr => cfg.depth_loss_mult * rampSchedule (step : ℚ) * dr)
            depth_loss := m.depth_loss.map (fun dl => cfg.depth_loss_mult * dl) }
  else
    Except.ok {}

/-- A depth image: a list of rows of rational depth entries (the
trailing singleton channel dimension of the tensors is dropped). -/
abbrev Img := List (List ℚ)

/-- `shape[1]` of a depth image: its width (number of columns). -/
def imgWidth (img : Img) : ℕ := (img.headD []).length

/-- Elementwise division of a depth image by a scalar. -/
def imgDiv (img : Img) (c : ℚ) : Img := img.map (fun r => r.map (fun x => x / c))

/-- The hard-coded crop `[:548, :898, :]` applied when the supervisory
width is exactly 899. -/
def cropImg (img : Img) : Img := (img.take 548).map (fun r => r.take 898)

/-- Row-major flattening of a depth image, the order in which boolean
mask indexing enumerates a tensor. -/
def flattenImg (img : Img) : List ℚ := img.foldr (fun r acc => r ++ acc) []

/-- The pairs `(pred[mask], sup[mask])` selected by the boolean mask
`sup > 0`: corresponding entries of the two images at the positions
where the supervisory entry is strictly positive. -/
def maskedPairs (pred sup : Img) : List (ℚ × ℚ) :=
  ((flattenImg pred).zip (flattenImg sup)).filter (fun p => 0 < p.2)

/-- `torch.nn.functional.mse_loss` on a list of paired entries: the
mean of the squared differences. -/
def mseLoss (pairs : List (ℚ × ℚ)) : ℚ :=
  ((pairs.map (fun p => (p.1 - p.2) ^ 2)).sum) / (pairs.length : ℚ)

/-- The fixed rescaling constant `scale = 0.25623789273` of
`get_image_metrics_and_images`. -/
def scaleConst : ℚ := 25623789273 / 100000000000

/-- The fixed normalization constant `7.27` dividing every MSE metric
of `get_image_metrics_and_images`. -/
def mseNorm : ℚ := 727 / 100

/-- The keys of `outputs` read or written by the evaluation path. -/
structure EvalOutputs where
  depth : Img
  accumulation : Img
deriving DecidableEq, Repr

/-- The keys of `batch` read by the evaluation path; the two extra
ground-truth depth sources are optional keys. -/
structure EvalBatch where
  depth_image : Img
  gt_depth_image : Option Img := none
  gt_object_depth_image : Option Img := none
deriving DecidableEq, Repr

/-- The metric entries added by `get_image_metrics_and_images`,
together with the outputs mapping as left behind by the call (the
Python code mutates the caller's `outputs` dict in place; here the
mutated mapping is returned).  The side-by-side colormap image is
produced by the external `colormaps.apply_depth_colormap` collaborator
and carries no further computation of this file, so it is not
modelled. -/
structure EvalResult where
  supervised_depth_mse : ℚ
  gt_depth_mse : Option ℚ := none
  gt_object_depth_mse : Option ℚ := none
  outputs : EvalOutputs
deriving DecidableEq, Repr

/-- The supervisory depth as used by the masked MSE: rescaled by
`scale`, then cropped when its width is the 899 sentinel. -/
def supervisedAfterCrop (batch : EvalBatch) : Img :=
  let supervised := imgDiv batch.depth_image scaleConst
  if imgWidth supervised = 899 then cropImg supervised else supervised

/-- `get_image_metrics_and_images` (lines 138-183): rescales the
supervisory depth and, in place, `outputs["depth"]` by `scale`; crops
the supervisory depth in the width-899 case; computes the masked MSE
`mse(outputs["depth"][sup > 0], sup[sup > 0]) / 7.27`; and, when both
extra ground-truth sources are present in the batch, computes the
analogous masked MSE of the (rescaled) predicted depth against each
raw (unrescaled) ground-truth source. -/
def getImageMetricsAndImages (outputs : EvalOutputs) (batch : EvalBatch) : EvalResult :=
  let outputs1 : EvalOutputs := { outputs with depth := imgDiv outputs.depth scaleConst }
  let supervised := supervisedAfterCrop batch
  let smse := mseLoss (maskedPairs outputs1.depth supervised) / mseNorm
  match batch.gt_depth_image, batch.gt_object_depth_image with
  | some gt, some gtObject =>
      { supervised_depth_mse := smse
        gt_depth_mse := some (mseLoss (maskedPairs outputs1.depth gt) / mseNorm)
        gt_object_depth_mse := some (mseLoss (maskedPairs outputs1.depth gtObject) / mseNorm)
        outputs := outputs1 }
  | _, _ =>
      { supervised_depth_mse := smse
        outputs := outputs1 }

/-- Extracts the metric entries of a `get_metrics_dict` result, `none`
on a raised exception. -/
def resultMetrics (r : Except DepthError (MetricsUpdate × ℚ)) : Option MetricsUpdate :=
  match r with
  | Except.ok (m, _) => some m
  | Except.error _ => none

/-- Whether a `get_metrics_dict` result is the forced-pseudodepth
configuration `ValueError`. -/
def isConfigError (r : Except DepthError (MetricsUpdate × ℚ)) : Bool :=
  match r with
  | Except.error (DepthError.configError _ _) => true
  | _ => false

/-- Whether a `get_metrics_dict` result is the dispatch fallback
`NotImplementedError`. -/
def isNotImplementedError (r : Except DepthError (MetricsUpdate × ℚ)) : Bool :=
  match r with
  | Except.error (DepthError.notImplemented _) => true
  | _ => false

/-- The pointwise agreement used to state that masked-out entries do
not matter: two (predicted, supervisory) pairs agree on the mask when
their supervisory entries are equal and, if that entry passes the
`> 0` mask, their predicted entries are equal too. -/
def maskAgree (a b : ℚ × ℚ) : Prop :=
  a.2 = b.2 ∧ (0 < a.2 → a.1 = b.1)

instance (a b : ℚ × ℚ) : Decidable (maskAgree a b) := by
  unfold maskAgree
  infer_instance

/-- A concrete instantiation of the external `depth_loss` collaborator,
used to evaluate the embedding at concrete inputs. -/
def dlf0 : DepthLossArgs → ℚ := fun a => a.weights + a.ray_samples

/-- A concrete instantiation of `depth_loss` that reads the predicted
uncertainty argument. -/
def dlfPredictedUncertainty : DepthLossArgs → ℚ := fun a => a.predicted_uncertainty

/-- A concrete instantiation of `depth_loss` that reads the uncertainty
weight argument. -/
def dlfUncertaintyWeight : DepthLossArgs → ℚ := fun a => a.uncertainty_weight

/-- A concrete instantiation of the external `depth_ranking_loss`
collaborator. -/
def drf0 : ℚ → ℚ → ℚ := fun p g => p - g

/-- A concrete three-round outputs mapping for evaluating the
embedding. -/
def out0 : TrainOutputs where
  weights_list := [1, 2, 5]
  ray_samples_list := [1, 1, 1]
  expected_depth := 3
  depth_uncertainty := 7
  directions_norm := 1

/-- `out0` with a different predicted `depth_uncertainty`. -/
def out1 : TrainOutputs := { out0 with depth_uncertainty := 8 }

/-- A concrete training batch. -/
def batch0 : TrainBatch where
  depth_image := 2
  depth_uncertainty := 4

/-- A configuration using the simple regression tag. -/
def cfgSimpleTest : DepthNerfactoModelConfig where
  depth_loss_type := DepthLossType.simpleLoss

/-- A configuration using the ranking tag. -/
def cfgRankingTest : DepthNerfactoModelConfig where
  depth_loss_type := DepthLossType.sparsenerfRanking

/-- A configuration using an unrecognized tag. -/
def cfgOtherTest : DepthNerfactoModelConfig where
  depth_loss_type := DepthLossType.otherTag

/-- A decay-enabled configuration with rate 1/2, floor 1/100 and
starting sigma 1/5. -/
def cfgDecayTest : DepthNerfactoModelConfig where
  should_decay_sigma := true
  sigma_decay_rate := 1 / 2
  depth_sigma := 1 / 100
  starting_depth_sigma := 1 / 5

/-- A decay-disabled configuration with sigma 3/100. -/
def cfgNoDecayTest : DepthNerfactoModelConfig where
  depth_sigma := 3 / 100

/-- A concrete metrics dict holding a ranking entry. -/
def metricsRanking0 : MetricsUpdate where
  depth_ranking := some 2

/-- `cfgSimpleTest` with a different uncertainty weight. -/
def cfgSimpleWeightTest : DepthNerfactoModelConfig :=
  { cfgSimpleTest with uncertainty_weight := 2 }

/-- `batch0` with a different ground-truth depth uncertainty. -/
def batch1 : TrainBatch := { batch0 with depth_uncertainty := 5 }

/-- `cfgRankingTest` with every sigma-related knob changed. -/
def cfgRankingSigmaTest : DepthNerfactoModelConfig :=
  { cfgRankingTest with
      depth_sigma := 5
      should_decay_sigma := true
      starting_depth_sigma := 7
      sigma_decay_rate := 1 / 3 }

/-- A concrete evaluation outputs mapping (one row, two pixels). -/
def evalOut0 : EvalOutputs where
  depth := [[1, 5]]
  accumulation := [[0, 0]]

/-- `evalOut0` with the predicted depth changed only at the pixel
whose supervisory depth is 0 (masked out). -/
def evalOut1 : EvalOutputs where
  depth := [[1, 9]]
  accumulation := [[0, 0]]

/-- A concrete evaluation batch whose second supervisory pixel is 0
(excluded by the mask), without the extra ground-truth sources. -/
def evalBatch0 : EvalBatch where
  depth_image := [[2, 0]]

/-- A concrete evaluation batch carrying both extra ground-truth depth
sources. -/
def evalBatchGt : EvalBatch where
  depth_image := [[2, 0]]
  gt_depth_image := some [[1, 1]]
  gt_object_depth_image := some [[0, 3]]

end DepthNerfacto

namespace DepthNerfacto

theorem foldl_add_div_eq (g : ℕ → ℚ) (d : ℚ) (l : List ℕ) (c : ℚ) :
    l.foldl (fun acc i => acc + g i / d) c = c + (l.map g).sum / d := by
  induction l generalizing c with
  | nil => simp
  | cons a t ih =>
      rw [List.foldl_cons, ih, List.map_cons, List.sum_cons, add_div]
      ring

theorem filter_eq_of_forall₂_maskAgree (l l' : List (ℚ × ℚ))
    (h : List.Forall₂ maskAgree l l') :
    l.filter (fun p => 0 < p.2) = l'.filter (fun p => 0 < p.2) := by
  induction h with
  | nil => rfl
  | @cons a b l1 l2 hab htl ih =>
      rcases hab with ⟨h2, h1⟩
      by_cases hp : 0 < a.2
      · have hp' : 0 < b.2 := h2 ▸ hp
        have hab' : a = b := Prod.ext (h1 hp) h2
        simp only [List.filter_cons, decide_eq_true_eq, hp, hp', ih, hab', if_pos]
      · have hp' : ¬ 0 < b.2 := by rw [← h2]; exact hp
        simp only [List.filter_cons, decide_eq_true_eq, hp, hp', if_neg, ih,
          not_false_eq_true]

theorem getImageMetrics_supervised_mse (outputs : EvalOutputs) (batch : EvalBatch) :
    (getImageMetricsAndImages outputs batch).supervised_depth_mse =
      mseLoss (maskedPairs (imgDiv outputs.depth scaleConst) (supervisedAfterCrop batch)) /
        mseNorm := by
  unfold getImageMetricsAndImages
  cases hgt : batch.gt_depth_image with
  | none => cases batch.gt_object_depth_image <;> simp
  | some gt => cases batch.gt_object_depth_image <;> simp

theorem sigmaState_const_of_no_decay (cfg : DepthNerfactoModelConfig)
    (h : cfg.should_decay_sigma = false) (n : ℕ) :
    sigmaState cfg n = cfg.depth_sigma := by
  induction n with
  | zero => simp [sigmaState, initialDepthSigma, h]
  | succ k ih => simp [sigmaState, getSigma, h, ih]

/-- Claim C3: if sigma decay is disabled, every query of `_get_sigma`
returns the configured constant `depth_sigma` and leaves the sigma
state unmutated; if decay is enabled, each query updates the owned
state from the `starting_depth_sigma` seed to
`max(sigma_decay_rate * state, depth_sigma)` — the floor being the
configured constant `depth_sigma` — and returns the updated state. -/
theorem sigma_controller_spec (cfg : DepthNerfactoModelConfig) (n : ℕ) :
    (cfg.should_decay_sigma = false →
      sigmaValue cfg n = cfg.depth_sigma ∧ sigmaState cfg (n + 1) = sigmaState cfg n) ∧
    (cfg.should_decay_sigma = true →
      sigmaState cfg 0 = cfg.starting_depth_sigma ∧
      sigmaState cfg (n + 1) = max (cfg.sigma_decay_rate * sigmaState cfg n) cfg.depth_sigma ∧
      sigmaValue cfg n = sigmaState cfg (n + 1)) := by
  constructor
  · intro h
    refine ⟨?_, ?_⟩
    · rw [sigmaValue, getSigma, sigmaState_const_of_no_decay cfg h n]
      simp [h]
    · rw [sigmaState_const_of_no_decay cfg h (n + 1), sigmaState_const_of_no_decay cfg h n]
  · intro h
    refine ⟨by simp [sigmaState, initialDepthSigma, h], by simp [sigmaState, getSigma, h], ?_⟩
    simp [sigmaValue, sigmaState, getSigma, h]

/-- Witness for C3: concrete queries of the two controller modes. -/
theorem sigma_controller_spec_witness :
    (sigmaValue cfgNoDecayTest 2 = cfgNoDecayTest.depth_sigma ∧
      sigmaState cfgNoDecayTest 3 = sigmaState cfgNoDecayTest 2) ∧
    (sigmaState cfgDecayTest 0 = cfgDecayTest.starting_depth_sigma ∧
      sigmaState cfgDecayTest 2 =
        max (cfgDecayTest.sigma_decay_rate * sigmaState cfgDecayTest 1) cfgDecayTest.depth_sigma ∧
      sigmaValue cfgDecayTest 1 = sigmaState cfgDecayTest 2) := by
  constructor
  · exact (sigma_controller_spec cfgNoDecayTest 2).1 rfl
  · exact (sigma_controller_spec cfgDecayTest 1).2 rfl

theorem sigmaState_floor (cfg : DepthNerfactoModelConfig)
    (hdec : cfg.should_decay_sigma = true)
    (hs : cfg.depth_sigma ≤ cfg.starting_depth_sigma) (n : ℕ) :
    cfg.depth_sigma ≤ sigmaState cfg n := by
  cases n with
  | zero => simpa [sigmaState, initialDepthSigma, hdec] using hs
  | succ k =>
      rw [sigmaState, getSigma]
      simp [hdec]

theorem sigmaValue_eq_state_succ (cfg : DepthNerfactoModelConfig)
    (hdec : cfg.should_decay_sigma = true) (n : ℕ) :
    sigmaValue cfg n = sigmaState cfg (n + 1) := by
  simp [sigmaValue, sigmaState, getSigma, hdec]

/-- Claim C4: with decay enabled, rate in (0,1), positive floor
`depth_sigma` and starting sigma at least the floor, the successive
query values are monotonically non-increasing, never drop below the
floor, and stay positive. -/
theorem sigma_decay_invariant (cfg : DepthNerfactoModelConfig)
    (hdec : cfg.should_decay_sigma = true)
    (hr0 : 0 < cfg.sigma_decay_rate) (hr1 : cfg.sigma_decay_rate < 1)
    (hf : 0 < cfg.depth_sigma) (hs : cfg.depth_sigma ≤ cfg.starting_depth_sigma) (n : ℕ) :
    cfg.depth_sigma ≤ sigmaValue cfg n ∧ 0 < sigmaValue cfg n ∧
      sigmaValue cfg (n + 1) ≤ sigmaValue cfg n := by
  have hfloor : cfg.depth_sigma ≤ sigmaValue cfg n := by
    rw [sigmaValue_eq_state_succ cfg hdec n]
    exact sigmaState_floor cfg hdec hs (n + 1)
  refine ⟨hfloor, lt_of_lt_of_le hf hfloor, ?_⟩
  rw [sigmaValue_eq_state_succ cfg hdec (n + 1), sigmaValue_eq_state_succ cfg hdec n]
  rw [show sigmaState cfg (n + 1 + 1) = (getSigma cfg (sigmaState cfg (n + 1))).2 from rfl]
  rw [getSigma]
  simp only [hdec, if_pos]
  have hx : cfg.depth_sigma ≤ sigmaState cfg (n + 1) := sigmaState_floor cfg hdec hs (n + 1)
  have hx0 : (0 : ℚ) ≤ sigmaState cfg (n + 1) := le_of_lt (lt_of_lt_of_le hf hx)
  exact max_le (le_trans (mul_le_mul_of_nonneg_right (le_of_lt hr1) hx0) (by rw [one_mul])) hx

/-- Witness for C4: the invariant at the concrete decay configuration
with rate 1/2, floor 1/100, starting sigma 1/5. -/
theorem sigma_decay_invariant_witness :
    cfgDecayTest.depth_sigma ≤ sigmaValue cfgDecayTest 1 ∧ 0 < sigmaValue cfgDecayTest 1 ∧
      sigmaValue cfgDecayTest 2 ≤ sigmaValue cfgDecayTest 1 :=
  sigma_decay_invariant cfgDecayTest rfl (by norm_num [cfgDecayTest])
    (by norm_num [cfgDecayTest]) (by norm_num [cfgDecayTest]) (by norm_num [cfgDecayTest]) 1

/-- Claim C1: in training mode with a regression-family tag and a
non-empty `weights_list` of `N` rounds, the produced `depth_loss`
entry equals the arithmetic mean — the sum divided by `N`, not the
sum — of the per-round values of the external `depth_loss` function
applied to round `i`'s weights and ray samples. -/
theorem depth_loss_is_mean (dlf : DepthLossArgs → ℚ) (drf : ℚ → ℚ → ℚ)
    (cfg : DepthNerfactoModelConfig) (st : ℚ) (outputs : TrainOutputs) (batch : TrainBatch)
    (hreg : cfg.depth_loss_type ∈ regressionLosses)
    (hne : outputs.weights_list ≠ []) :
    getMetricsDict dlf drf false cfg true st outputs batch =
      Except.ok
        ({ depth_loss := some
            (((List.range outputs.weights_list.length).map
                (fun i => dlf (depthLossArgs cfg outputs batch (getSigma cfg st).1 i))).sum /
              (outputs.weights_list.length : ℚ)) },
         (getSigma cfg st).2) := by
  rw [getMetricsDict]
  rw [if_pos rfl, if_neg (by simp), if_pos hreg]
  simp only [foldl_add_div_eq, zero_add]

/-- Witness for C1: three synthetic rounds with per-round values 2, 3
and 6; the produced entry is their mean 11/3, not their sum 11. -/
theorem depth_loss_is_mean_witness :
    getMetricsDict dlf0 drf0 false cfgSimpleTest true 1 out0 batch0 =
      Except.ok
        ({ depth_loss := some
            (((List.range out0.weights_list.length).map
                (fun i => dlf0 (depthLossArgs cfgSimpleTest out0 batch0
                  (getSigma cfgSimpleTest 1).1 i))).sum /
              (out0.weights_list.length : ℚ)) },
         (getSigma cfgSimpleTest 1).2) ∧
    ((List.range out0.weights_list.length).map
        (fun i => dlf0 (depthLossArgs cfgSimpleTest out0 batch0
          (getSigma cfgSimpleTest 1).1 i))).sum /
      (out0.weights_list.length : ℚ) = 11 / 3 := by
  constructor
  · exact depth_loss_is_mean dlf0 drf0 cfgSimpleTest 1 out0 batch0 (by decide) (by decide)
  · norm_num [out0, batch0, cfgSimpleTest, dlf0, depthLossArgs, getSigma, uncertaintyLosses,
      List.range_succ]

/-- Claim C2: in training mode, when the metrics contain
`depth_ranking`, the added loss entry is
`depth_loss_mult * ramp(step) * depth_ranking`, where the ramp is the
clamped linear interpolation from 0 at step 0 to 0.2 at step 2000:
ramp(0) = 0, ramp(1000) = 1/10, ramp(2000) = 1/5, and ramp(s) = 1/5
for every step s at or beyond 2000. -/
theorem ranking_ramp_spec (cfg : DepthNerfactoModelConfig) (step s : ℕ)
    (metrics : MetricsUpdate) (dr : ℚ)
    (hdr : metrics.depth_ranking = some dr) (hs : 2000 ≤ s) :
    getLossDict cfg true step (some metrics) =
      Except.ok
        { depth_ranking := some (cfg.depth_loss_mult * rampSchedule (step : ℚ) * dr)
          depth_loss := metrics.depth_loss.map (fun dl => cfg.depth_loss_mult * dl) } ∧
    rampSchedule 0 = 0 ∧ rampSchedule 1000 = 1 / 10 ∧ rampSchedule 2000 = 1 / 5 ∧
    rampSchedule (s : ℚ) = 1 / 5 := by
  refine ⟨?_, by norm_num [rampSchedule], by norm_num [rampSchedule],
    by norm_num [rampSchedule], ?_⟩
  · rw [getLossDict]
    simp [hdr]
  · have hs' : (2000 : ℚ) ≤ (s : ℚ) := by exact_mod_cast hs
    rw [rampSchedule, if_neg (by linarith), if_pos hs']

/-- Witness for C2: at step 1000 with ranking value 2, the added entry
is `depth_loss_mult * (1/10) * 2`; the ramp values at 0, 1000, 2000
and 5000 are as claimed. -/
theorem ranking_ramp_spec_witness :
    getLossDict cfgRankingTest true 1000 (some metricsRanking0) =
      Except.ok
        { depth_ranking := some (cfgRankingTest.depth_loss_mult * rampSchedule ((1000 : ℕ) : ℚ) * 2)
          depth_loss := metricsRanking0.depth_loss.map
            (fun dl => cfgRankingTest.depth_loss_mult * dl) } ∧
    rampSchedule 0 = 0 ∧ rampSchedule 1000 = 1 / 10 ∧ rampSchedule 2000 = 1 / 5 ∧
    rampSchedule ((5000 : ℕ) : ℚ) = 1 / 5 :=
  ranking_ramp_spec cfgRankingTest 1000 5000 metricsRanking0 2 rfl (by norm_num)

/-- Counterexample to C5: under the simple regression tag, the
predicted uncertainty and the uncertainty-weight scalar ARE passed to
the external `depth_loss` function — a `depth_loss` instantiation
reading either argument produces different metrics for runs that
differ only in `outputs.depth_uncertainty`, respectively only in
`config.uncertainty_weight`. -/
theorem uncertainty_args_counterexample :
    cfgSimpleTest.depth_loss_type = DepthLossType.simpleLoss ∧
    resultMetrics (getMetricsDict dlfPredictedUncertainty drf0 false cfgSimpleTest true 1
        out0 batch0) ≠
      resultMetrics (getMetricsDict dlfPredictedUncertainty drf0 false cfgSimpleTest true 1
        out1 batch0) ∧
    resultMetrics (getMetricsDict dlfUncertaintyWeight drf0 false cfgSimpleTest true 1
        out0 batch0) ≠
      resultMetrics (getMetricsDict dlfUncertaintyWeight drf0 false cfgSimpleWeightTest true 1
        out0 batch0) := by
  refine ⟨rfl, ?_, ?_⟩
  · norm_num [getMetricsDict, resultMetrics, cfgSimpleTest, out0, out1, batch0,
      dlfPredictedUncertainty, depthLossArgs, getSigma, regressionLosses,
      PSEUDODEPTH_COMPATIBLE_LOSSES, uncertaintyLosses, List.range_succ]
  · norm_num [getMetricsDict, resultMetrics, cfgSimpleTest, cfgSimpleWeightTest, out0, batch0,
      dlfUncertaintyWeight, depthLossArgs, getSigma, regressionLosses,
      PSEUDODEPTH_COMPATIBLE_LOSSES, uncertaintyLosses, List.range_succ]

/-- Claim C5 as amended: for regression tags outside the
uncertainty-weighted / dense-depth-priors pair, only the ground-truth
uncertainty is withheld — `None` is passed for it and the batch's
uncertainty never affects the result — while the predicted uncertainty
and the uncertainty-weight scalar are passed unconditionally; for the
uncertainty pair the ground-truth uncertainty from the batch is
passed. -/
theorem uncertainty_args_passing (dlf : DepthLossArgs → ℚ) (drf : ℚ → ℚ → ℚ) (force : Bool)
    (cfg : DepthNerfactoModelConfig) (st σ : ℚ) (i : ℕ) (outputs : TrainOutputs)
    (batch batch' : TrainBatch)
    (hreg : cfg.depth_loss_type ∈ regressionLosses)
    (hnu : cfg.depth_loss_type ∉ uncertaintyLosses)
    (hdi : batch'.depth_image = batch.depth_image) :
    (depthLossArgs cfg outputs batch σ i).termination_uncertainty = none ∧
    (depthLossArgs { cfg with depth_loss_type := DepthLossType.denseDepthPriorsLoss }
        outputs batch σ i).termination_uncertainty = some batch.depth_uncertainty ∧
    (depthLossArgs cfg outputs batch σ i).predicted_uncertainty = outputs.depth_uncertainty ∧
    (depthLossArgs cfg outputs batch σ i).uncertainty_weight = cfg.uncertainty_weight ∧
    getMetricsDict dlf drf force cfg true st outputs batch' =
      getMetricsDict dlf drf force cfg true st outputs batch := by
  have hargs : ∀ (s : ℚ) (j : ℕ),
      depthLossArgs cfg outputs batch' s j = depthLossArgs cfg outputs batch s j := by
    intro s j
    simp [depthLossArgs, hnu, hdi]
  refine ⟨by simp [depthLossArgs, hnu], by simp [depthLossArgs, uncertaintyLosses],
    by simp [depthLossArgs], by simp [depthLossArgs], ?_⟩
  simp only [getMetricsDict, hargs, hdi]

/-- Witness for C5 (amended): the simple tag at concrete inputs; the
two batches differ only in their ground-truth uncertainty. -/
theorem uncertainty_args_passing_witness :
    (depthLossArgs cfgSimpleTest out0 batch0 1 0).termination_uncertainty = none ∧
    (depthLossArgs { cfgSimpleTest with depth_loss_type := DepthLossType.denseDepthPriorsLoss }
        out0 batch0 1 0).termination_uncertainty = some batch0.depth_uncertainty ∧
    (depthLossArgs cfgSimpleTest out0 batch0 1 0).predicted_uncertainty =
      out0.depth_uncertainty ∧
    (depthLossArgs cfgSimpleTest out0 batch0 1 0).uncertainty_weight =
      cfgSimpleTest.uncertainty_weight ∧
    getMetricsDict dlf0 drf0 false cfgSimpleTest true 1 out0 batch1 =
      getMetricsDict dlf0 drf0 false cfgSimpleTest true 1 out0 batch0 :=
  uncertainty_args_passing dlf0 drf0 false cfgSimpleTest 1 1 0 out0 batch0 batch1
    (by decide) (by decide) rfl

/-- Claim C6: in training mode with the force-pseudodepth flag set and
a tag outside the compatible allow-list, the configuration error
naming the offending tag and the allowed set is raised — before any
loss is computed, for every instantiation of the external loss
functions; for every tag inside the allow-list the configuration
error is never raised, whatever the flag. -/
theorem pseudodepth_config_check (dlf : DepthLossArgs → ℚ) (drf : ℚ → ℚ → ℚ) (force : Bool)
    (cfg : DepthNerfactoModelConfig) (st : ℚ) (outputs : TrainOutputs) (batch : TrainBatch) :
    (cfg.depth_loss_type ∉ PSEUDODEPTH_COMPATIBLE_LOSSES →
      getMetricsDict dlf drf true cfg true st outputs batch =
        Except.error (DepthError.configError cfg.depth_loss_type
          PSEUDODEPTH_COMPATIBLE_LOSSES)) ∧
    (cfg.depth_loss_type ∈ PSEUDODEPTH_COMPATIBLE_LOSSES →
      isConfigError (getMetricsDict dlf drf force cfg true st outputs batch) = false) := by
  constructor
  · intro h
    rw [getMetricsDict, if_pos rfl, if_pos ⟨rfl, h⟩]
  · intro h
    rw [getMetricsDict, if_pos rfl, if_neg (by simp [h])]
    by_cases hreg : cfg.depth_loss_type ∈ regressionLosses
    · rw [if_pos hreg]
      simp [isConfigError]
    · rw [if_neg hreg]
      by_cases hrank : cfg.depth_loss_type = DepthLossType.sparsenerfRanking
      · rw [if_pos hrank]
        simp [isConfigError]
      · rw [if_neg hrank]
        simp [isConfigError]

/-- Witness for C6: the simple tag under the forced flag raises the
configuration error; the ranking tag never does. -/
theorem pseudodepth_config_check_witness :
    getMetricsDict dlf0 drf0 true cfgSimpleTest true 1 out0 batch0 =
      Except.error (DepthError.configError cfgSimpleTest.depth_loss_type
        PSEUDODEPTH_COMPATIBLE_LOSSES) ∧
    isConfigError (getMetricsDict dlf0 drf0 true cfgRankingTest true 1 out0 batch0) = false := by
  constructor
  · exact (pseudodepth_config_check dlf0 drf0 true cfgSimpleTest 1 out0 batch0).1 (by decide)
  · exact (pseudodepth_config_check dlf0 drf0 true cfgRankingTest 1 out0 batch0).2 (by decide)

/-- Counterexample to C7: with the force-pseudodepth flag set, a
training-mode call whose tag is neither regression-family nor the
ranking tag raises the configuration ValueError, not the
NotImplementedError the claim promises. -/
theorem unknown_tag_counterexample :
    cfgOtherTest.depth_loss_type ∉ regressionLosses ∧
    cfgOtherTest.depth_loss_type ≠ DepthLossType.sparsenerfRanking ∧
    isNotImplementedError (getMetricsDict dlf0 drf0 true cfgOtherTest true 1 out0 batch0) =
      false ∧
    isConfigError (getMetricsDict dlf0 drf0 true cfgOtherTest true 1 out0 batch0) = true :=
  ⟨by decide, by decide, by decide, by decide⟩

/-- Claim C7 as amended: for a tag that is neither regression-family
nor the ranking tag, the dispatch raises the NotImplementedError
naming the tag whenever the force-pseudodepth flag is unset; with the
flag set the configuration error is raised first instead; in every
case an error is raised, so the dispatch never silently produces a
metrics mapping lacking both `depth_loss` and `depth_ranking`. -/
theorem unknown_tag_dispatch (dlf : DepthLossArgs → ℚ) (drf : ℚ → ℚ → ℚ) (force : Bool)
    (cfg : DepthNerfactoModelConfig) (st : ℚ) (outputs : TrainOutputs) (batch : TrainBatch)
    (hreg : cfg.depth_loss_type ∉ regressionLosses)
    (hrank : cfg.depth_loss_type ≠ DepthLossType.sparsenerfRanking) :
    getMetricsDict dlf drf false cfg true st outputs batch =
      Except.error (DepthError.notImplemented cfg.depth_loss_type) ∧
    getMetricsDict dlf drf true cfg true st outputs batch =
      Except.error (DepthError.configError cfg.depth_loss_type
        PSEUDODEPTH_COMPATIBLE_LOSSES) ∧
    resultMetrics (getMetricsDict dlf drf force cfg true st outputs batch) = none := by
  have hnp : cfg.depth_loss_type ∉ PSEUDODEPTH_COMPATIBLE_LOSSES := by
    simp [PSEUDODEPTH_COMPATIBLE_LOSSES, hrank]
  refine ⟨?_, ?_, ?_⟩
  · rw [getMetricsDict, if_pos rfl, if_neg (by simp), if_neg hreg, if_neg hrank]
  · rw [getMetricsDict, if_pos rfl, if_pos ⟨rfl, hnp⟩]
  · cases force
    · rw [getMetricsDict, if_pos rfl, if_neg (by simp), if_neg hreg, if_neg hrank]
      simp [resultMetrics]
    · rw [getMetricsDict, if_pos rfl, if_pos ⟨rfl, hnp⟩]
      simp [resultMetrics]

/-- Witness for C7 (amended): the unrecognized tag at concrete
inputs. -/
theorem unknown_tag_dispatch_witness :
    getMetricsDict dlf0 drf0 false cfgOtherTest true 1 out0 batch0 =
      Except.error (DepthError.notImplemented cfgOtherTest.depth_loss_type) ∧
    getMetricsDict dlf0 drf0 true cfgOtherTest true 1 out0 batch0 =
      Except.error (DepthError.configError cfgOtherTest.depth_loss_type
        PSEUDODEPTH_COMPATIBLE_LOSSES) ∧
    resultMetrics (getMetricsDict dlf0 drf0 true cfgOtherTest true 1 out0 batch0) = none :=
  unknown_tag_dispatch dlf0 drf0 true cfgOtherTest 1 out0 batch0 (by decide) (by decide)

/-- Claim C8: for the ranking tag, the produced `depth_ranking` is
identical across any two runs differing only in the sigma
configuration knobs and the sigma state, and it equals the external
ranking loss of the expected depth against the ground-truth depth —
sigma is neither queried nor used. -/
theorem ranking_sigma_independent (dlf : DepthLossArgs → ℚ) (drf : ℚ → ℚ → ℚ) (force : Bool)
    (cfg1 cfg2 : DepthNerfactoModelConfig) (st1 st2 : ℚ)
    (outputs : TrainOutputs) (batch : TrainBatch)
    (hrank : cfg1.depth_loss_type = DepthLossType.sparsenerfRanking)
    (htag : cfg2.depth_loss_type = cfg1.depth_loss_type)
    (hmult : cfg2.depth_loss_mult = cfg1.depth_loss_mult)
    (hweight : cfg2.uncertainty_weight = cfg1.uncertainty_weight)
    (heuc : cfg2.is_euclidean_depth = cfg1.is_euclidean_depth) :
    resultMetrics (getMetricsDict dlf drf force cfg1 true st1 outputs batch) =
      resultMetrics (getMetricsDict dlf drf force cfg2 true st2 outputs batch) ∧
    resultMetrics (getMetricsDict dlf drf force cfg1 true st1 outputs batch) =
      some { depth_loss := none
             depth_ranking := some (drf outputs.expected_depth batch.depth_image) } := by
  have key : ∀ (cfg : DepthNerfactoModelConfig) (st : ℚ),
      cfg.depth_loss_type = DepthLossType.sparsenerfRanking →
      getMetricsDict dlf drf force cfg true st outputs batch =
        Except.ok ({ depth_ranking := some (drf outputs.expected_depth batch.depth_image) },
          st) := by
    intro cfg st h
    rw [getMetricsDict, if_pos rfl, if_neg (by simp [h, PSEUDODEPTH_COMPATIBLE_LOSSES]),
      if_neg (by rw [h]; decide), if_pos h]
  rw [key cfg1 st1 hrank, key cfg2 st2 (htag.trans hrank)]
  exact ⟨rfl, rfl⟩

/-- Witness for C8: two runs whose configurations differ in every
sigma knob and whose sigma states differ. -/
theorem ranking_sigma_independent_witness :
    resultMetrics (getMetricsDict dlf0 drf0 false cfgRankingTest true 1 out0 batch0) =
      resultMetrics (getMetricsDict dlf0 drf0 false cfgRankingSigmaTest true 9 out0 batch0) ∧
    resultMetrics (getMetricsDict dlf0 drf0 false cfgRankingTest true 1 out0 batch0) =
      some { depth_loss := none
             depth_ranking := some (drf0 out0.expected_depth batch0.depth_image) } :=
  ranking_sigma_independent dlf0 drf0 false cfgRankingTest cfgRankingSigmaTest 1 9 out0 batch0
    rfl rfl rfl rfl rfl

/-- Claim C9: the `supervised_depth_mse` metric equals the
mean-squared error over exactly the positions where the rescaled,
possibly cropped supervisory depth is strictly positive, divided by
the fixed normalization constant; entries at positions whose
supervisory depth is not positive do not affect the result. -/
theorem supervised_mse_masked (outputs outputs' : EvalOutputs) (batch : EvalBatch)
    (hagree : List.Forall₂ maskAgree
      ((flattenImg (imgDiv outputs.depth scaleConst)).zip
        (flattenImg (supervisedAfterCrop batch)))
      ((flattenImg (imgDiv outputs'.depth scaleConst)).zip
        (flattenImg (supervisedAfterCrop batch)))) :
    (getImageMetricsAndImages outputs batch).supervised_depth_mse =
      mseLoss (maskedPairs (imgDiv outputs.depth scaleConst) (supervisedAfterCrop batch)) /
        mseNorm ∧
    (getImageMetricsAndImages outputs' batch).supervised_depth_mse =
      (getImageMetricsAndImages outputs batch).supervised_depth_mse := by
  refine ⟨getImageMetrics_supervised_mse outputs batch, ?_⟩
  rw [getImageMetrics_supervised_mse outputs batch,
    getImageMetrics_supervised_mse outputs' batch]
  unfold maskedPairs
  rw [← filter_eq_of_forall₂_maskAgree _ _ hagree]

/-- Witness for C9: a two-pixel image whose second supervisory pixel
is 0; changing the prediction there leaves the metric unchanged. -/
theorem supervised_mse_masked_witness :
    (getImageMetricsAndImages evalOut0 evalBatch0).supervised_depth_mse =
      mseLoss (maskedPairs (imgDiv evalOut0.depth scaleConst)
        (supervisedAfterCrop evalBatch0)) / mseNorm ∧
    (getImageMetricsAndImages evalOut1 evalBatch0).supervised_depth_mse =
      (getImageMetricsAndImages evalOut0 evalBatch0).supervised_depth_mse :=
  supervised_mse_masked evalOut0 evalOut1 evalBatch0 (by
    norm_num [evalOut0, evalOut1, evalBatch0, flattenImg, imgDiv, supervisedAfterCrop,
      cropImg, imgWidth, scaleConst, maskAgree, List.zip, List.forall₂_cons])

/-- Claim C10: the evaluation path leaves the caller-supplied outputs
mapping with `depth` divided by the fixed rescaling constant, and the
`gt_depth_mse` / `gt_object_depth_mse` metrics are masked MSEs of this
rescaled predicted depth against the raw, unrescaled ground-truth
sources. -/
theorem eval_outputs_mutation (outputs : EvalOutputs) (batch : EvalBatch) (gt gtObject : Img)
    (hgt : batch.gt_depth_image = some gt)
    (hgto : batch.gt_object_depth_image = some gtObject) :
    (getImageMetricsAndImages outputs batch).outputs.depth = imgDiv outputs.depth scaleConst ∧
    (getImageMetricsAndImages outputs batch).gt_depth_mse =
      some (mseLoss (maskedPairs (imgDiv outputs.depth scaleConst) gt) / mseNorm) ∧
    (getImageMetricsAndImages outputs batch).gt_object_depth_mse =
      some (mseLoss (maskedPairs (imgDiv outputs.depth scaleConst) gtObject) / mseNorm) := by
  unfold getImageMetricsAndImages
  rw [hgt, hgto]
  exact ⟨rfl, rfl, rfl⟩

/-- Witness for C10: a batch carrying both extra ground-truth
sources. -/
theorem eval_outputs_mutation_witness :
    (getImageMetricsAndImages evalOut0 evalBatchGt).outputs.depth =
      imgDiv evalOut0.depth scaleConst ∧
    (getImageMetricsAndImages evalOut0 evalBatchGt).gt_depth_mse =
      some (mseLoss (maskedPairs (imgDiv evalOut0.depth scaleConst) [[1, 1]]) / mseNorm) ∧
    (getImageMetricsAndImages evalOut0 evalBatchGt).gt_object_depth_mse =
      some (mseLoss (maskedPairs (imgDiv evalOut0.depth scaleConst) [[0, 3]]) / mseNorm) :=
  eval_outputs_mutation evalOut0 evalBatchGt [[1, 1]] [[0, 3]] rfl rfl

end DepthNerfacto
